import Mathlib

/-
Verification of the code-guardian operational scripts against their
natural-language specification.

The development shallowly embeds the two Python scripts:
  * scripts/performance-dashboard-server.py  (dashboard server; its inlined
    client-side status classifier is embedded as well)
  * scripts/github-api-setup.py              (branch-protection configurator)

Machine-level details that the scripts delegate to their runtime are modelled
explicitly where the claims depend on them:
  * file reads are given as a `FileRead` value (absent / raising / contents);
  * `datetime.fromisoformat` results are carried on each history entry as an
    `Option PyDT` (`none` models a raised `ValueError`/`AttributeError`), and a
    `PyDT` records whether the parsed datetime is offset-aware, because Python
    raises `TypeError` when an aware datetime is compared with the naive
    `datetime.now()` cutoff;
  * HTTP interactions are given as status codes, with `Except Unit` capturing
    `requests.exceptions.RequestException` at the transport layer.
-/

set_option autoImplicit false

namespace CodeGuardian

/-- Result of attempting to read a file: the file is absent, the read (or the
subsequent JSON parse) raises, or it yields a value. -/
inductive FileRead (α : Type) where
  | absent
  | failed
  | got (val : α)
deriving DecidableEq

/-- The two status classes emitted by `getStatusClass` in the dashboard's
client script (the CSS also styles a `warning` class, but the classifier
never returns it). -/
inductive Status where
  | good
  | critical
deriving DecidableEq

/-- Embedding of `getStatusClass(metric, value, threshold, comparison)` from
`performance-dashboard-server.py`: for `'gt'` the value is critical when it
exceeds the threshold, otherwise the value is critical when it is below the
threshold.  Metric values are modelled as rationals. -/
def getStatusClass (value threshold : ℚ) (comparison : String) : Status :=
  if comparison = "gt" then
    if value > threshold then .critical else .good
  else
    if value < threshold then .critical else .good

/-- `updateStatusCards`: build-time card status, `getStatusClass('build_time', v, 180, 'gt')`. -/
def buildTimeStatus (v : ℚ) : Status := getStatusClass v 180 "gt"

/-- `updateStatusCards`: test-time card status, `getStatusClass('test_time', v, 120, 'gt')`. -/
def testTimeStatus (v : ℚ) : Status := getStatusClass v 120 "gt"

/-- `updateStatusCards`: coverage card status, `getStatusClass('coverage', v, 82, 'lt')`. -/
def coverageStatus (v : ℚ) : Status := getStatusClass v 82 "lt"

/-- `updateStatusCards`: memory card status, `getStatusClass('memory_mb', v, 200, 'gt')`. -/
def memoryStatus (v : ℚ) : Status := getStatusClass v 200 "gt"

/-- Python `str.strip()`: remove leading and trailing whitespace (modelled on
the string's character list; the scripts only strip ASCII whitespace and line
terminators). -/
def pyStrip (s : String) : String :=
  ⟨((s.data.dropWhile Char.isWhitespace).reverse.dropWhile Char.isWhitespace).reverse⟩

/-- Python `str.lower()` (the scripts only lowercase ASCII answers such as
`Y`/`YES`). -/
def pyLower (s : String) : String :=
  ⟨s.data.map Char.toLower⟩

/-- Embedding of the alert tail in `get_metrics`:
`alerts = f.readlines()[-10:]` followed by
`alerts = [line.strip() for line in alerts if line.strip()]`.
The file's contents are modelled at line granularity (the `readlines` output,
with terminators absorbed into the subsequent `strip`). -/
def alertTail (lines : List String) : List String :=
  ((lines.drop (lines.length - 10)).filter (fun l => pyStrip l ≠ "")).map pyStrip

/-- The spec's reading of the alert tail, written independently of the code:
the last 10 elements of the list of non-empty (stripped) lines. -/
def specAlertTail (lines : List String) : List String :=
  let ne := (lines.filter (fun l => pyStrip l ≠ "")).map pyStrip
  ne.drop (ne.length - 10)

/-- The last `n` elements of a list, written by reversal (used to state the
amended alert-tail claim without repeating the code's `drop` arithmetic). -/
def lastN {α : Type} (n : ℕ) (l : List α) : List α :=
  (l.reverse.take n).reverse

/-- Result of `datetime.fromisoformat(s.replace("Z", "+00:00"))` on a
timestamp string: `aware` records whether the parsed datetime carries a UTC
offset (true for strings ending in `Z` or an explicit offset), `t` its time in
seconds.  Python refuses to order an aware datetime against a naive one
(`TypeError`), which the trend filter's `except` then swallows. -/
structure PyDT where
  aware : Bool
  t : ℤ
deriving DecidableEq

/-- One element of `metrics_history`: the raw string under its `"timestamp"`
key (`""` when absent, mirroring `entry.get("timestamp", "")`), the outcome of
parsing that string (`none` models a raised exception), and the numeric metric
fields present on the entry. -/
structure Entry where
  timestampStr : String
  parsedTimestamp : Option PyDT
  fields : List (String × ℚ)
deriving DecidableEq

/-- `entry.get(metric, 0)`: look the metric up among the entry's fields,
defaulting to 0. -/
def Entry.getMetric (e : Entry) (metric : String) : ℚ :=
  match e.fields.lookup metric with
  | some v => v
  | none => 0

/-- One point of a trend series: `{"timestamp": entry["timestamp"], "value": entry.get(metric, 0)}`. -/
structure TrendPoint where
  timestamp : String
  value : ℚ
deriving DecidableEq

/-- Embedding of `PerformanceData.get_trend_data(metric, hours=24)`.
`now` is `datetime.now()` in seconds (an offset-naive datetime); the cutoff is
`now - 24*3600`.  Per entry the `try` block either parses the timestamp
(`none` = raise, skip), compares it with the naive cutoff (aware vs naive
raises `TypeError`, skip), and appends the projected point when
`entry_time >= cutoff_time`. -/
def get_trend_data (history : List Entry) (metric : String) (now : ℤ) : List TrendPoint :=
  let cutoff : PyDT := ⟨false, now - 24 * 3600⟩
  history.filterMap fun e =>
    match e.parsedTimestamp with
    | none => none
    | some dt =>
      if dt.aware ≠ cutoff.aware then none
      else if cutoff.t ≤ dt.t then some ⟨e.timestampStr, e.getMetric metric⟩
      else none

/-- The inclusion predicate of the amended trend claim: the entry's timestamp
parses to an offset-naive datetime no older than 24 hours before `now`. -/
def trendIncluded (e : Entry) (now : ℤ) : Bool :=
  match e.parsedTimestamp with
  | some dt => !dt.aware && decide (now - 24 * 3600 ≤ dt.t)
  | none => false

/-- The top-level shape of `monitor_state.json` as the server consumes it. -/
structure StateData where
  consecutive_failures : ℤ
  last_successful_run : String
  metrics_history : List Entry
deriving DecidableEq

/-- The dict `load_data` falls back to when the state file is absent or fails
to load. -/
def defaultStateData : StateData := ⟨0, "", []⟩

/-- Embedding of `PerformanceData.load_data`: an absent file yields the
default dict, a raising load is caught and yields the same default, otherwise
the parsed contents replace the data wholesale. -/
def load_data (file : FileRead StateData) : StateData :=
  match file with
  | .absent => defaultStateData
  | .failed => defaultStateData
  | .got d => d

/-- Embedding of `PerformanceData.get_latest_metrics`: the last history entry,
or the empty dict (modelled as `none`) when the history is empty or missing. -/
def get_latest_metrics (d : StateData) : Option Entry :=
  d.metrics_history.getLast?

/-- The JSON body returned by `GET /api/metrics`. -/
structure MetricsResponse where
  latest : Option Entry
  trends_build_time : List TrendPoint
  trends_test_time : List TrendPoint
  trends_coverage : List TrendPoint
  trends_memory_mb : List TrendPoint
  alerts : List String
  status : ℤ
deriving DecidableEq

/-- Embedding of the `/api/metrics` handler `get_metrics`.  `d` is the
server's in-memory `perf_data.data`; `alertFile` the state of
`performance/alerts.log` (the handler's `try/except` leaves `alerts = []`
when the file is absent or the read raises); `now` is `datetime.now()`. -/
def get_metrics (d : StateData) (alertFile : FileRead (List String)) (now : ℤ) :
    MetricsResponse :=
  { latest := get_latest_metrics d
    trends_build_time := get_trend_data d.metrics_history "build_time" now
    trends_test_time := get_trend_data d.metrics_history "test_time" now
    trends_coverage := get_trend_data d.metrics_history "coverage" now
    trends_memory_mb := get_trend_data d.metrics_history "memory_mb" now
    alerts :=
      match alertFile with
      | .absent => []
      | .failed => []
      | .got lines => alertTail lines
    status := d.consecutive_failures }

/-- Outcome of the `subprocess.run(['./scripts/continuous-monitor.sh', 'check'],
capture_output=True, text=True, timeout=300)` call in the `/api/run-check`
handler: the process exited with a return code and captured output, the
300-second timeout expired (`subprocess.TimeoutExpired`), or spawning raised
some other exception. -/
inductive SubprocessOutcome where
  | exited (returncode : ℤ) (stdout stderr : String)
  | timedOut
  | spawnFailed (msg : String)
deriving DecidableEq

/-- Embedding of the `/api/run-check` handler `run_check`: the JSON `message`
it responds with for each subprocess outcome. -/
def run_check (o : SubprocessOutcome) : String :=
  match o with
  | .exited rc _ stderr =>
    if rc = 0 then "Performance check completed successfully!"
    else "Performance check failed: " ++ stderr
  | .timedOut => "Performance check timed out"
  | .spawnFailed msg => "Error running check: " ++ msg

/-- `s` contains `sub` as a contiguous substring. -/
def containsSub (s sub : String) : Prop :=
  ∃ pre post, s = pre ++ sub ++ post

/-- A file-system operation performed by the dashboard server.  The trace
model records each `Path.exists` / `open`-for-read / `mkdir` the script
performs; `writeFile` is in the vocabulary so that the read-only invariant is
a statement, not a typing artifact — no embedded operation ever emits it. -/
inductive FsOp where
  | statFile (path : String)
  | readFile (path : String)
  | writeFile (path : String)
  | mkdir (path : String)
deriving DecidableEq

/-- Whether an operation mutates the file system. -/
def FsOp.isWrite : FsOp → Bool
  | .writeFile _ => true
  | .mkdir _ => true
  | _ => false

/-- `STATE_FILE = PERFORMANCE_DIR / "monitor_state.json"`. -/
def statePath : String := "performance/monitor_state.json"

/-- `PERFORMANCE_DIR / "alerts.log"`. -/
def alertLogPath : String := "performance/alerts.log"

/-- File operations performed by one `load_data` call: `STATE_FILE.exists()`
always, then `open(STATE_FILE)` + `json.load` when the file exists (also on
the path where the load subsequently raises). -/
def load_data_ops (file : FileRead StateData) : List FsOp :=
  match file with
  | .absent => [.statFile statePath]
  | .failed => [.statFile statePath, .readFile statePath]
  | .got _ => [.statFile statePath, .readFile statePath]

/-- File operations of `n` ticks of the `refresh_data` background loop, the
`i`-th tick observing the state file in state `files i`; each tick is exactly
one `load_data` call. -/
def refresh_data_ops (files : ℕ → FileRead StateData) (n : ℕ) : List FsOp :=
  (List.range n).flatMap fun i => load_data_ops (files i)

/-- File operations of one `/api/metrics` request: `alert_file.exists()`,
then `open(alert_file)` + `readlines` when it exists.  The state file is not
touched — the handler reads the in-memory `perf_data`. -/
def get_metrics_ops (alertFile : FileRead (List String)) : List FsOp :=
  match alertFile with
  | .absent => [.statFile alertLogPath]
  | .failed => [.statFile alertLogPath, .readFile alertLogPath]
  | .got _ => [.statFile alertLogPath, .readFile alertLogPath]

/-- File operations of one `/api/run-check` request: the handler only spawns
the monitoring subprocess; the server process itself performs no file
operation. -/
def run_check_ops : List FsOp := []

/-- File operations of one `GET /` request: the handler renders a constant
template. -/
def dashboard_ops : List FsOp := []

/-
Configurator (`github-api-setup.py`).
-/

/-- An HTTP response as the configurator observes it (the response bodies the
scripts consume are carried separately where a claim needs them). -/
structure Resp where
  status : ℕ
deriving DecidableEq

/-- Outcome of one `requests` call: `.error` models
`requests.exceptions.RequestException` raised at the transport layer (caught
by `_make_request`, which prints and exits 1), `.ok` an HTTP response. -/
abbrev ReqResult := Except Unit Resp

/-- Whether a request produced an HTTP response (no transport exception). -/
def reqOk : ReqResult → Bool
  | .ok _ => true
  | .error _ => false

/-- Embedding of `GitHubAPIClient.get_branch_protection(branch)` at the
response level: given the response's status and parsed JSON body, it returns
the settings on 200, `None` on 404, and otherwise prints a warning and
returns `None`.  The second component is the list of warning lines printed. -/
def get_branch_protection {α : Type} (branch : String) (status : ℕ) (body : α) :
    Option α × List String :=
  if status = 200 then (some body, [])
  else if status = 404 then (none, [])
  else (none, ["Failed to get branch protection for " ++ branch ++ ": " ++ toString status])

/-- Outcome of `subprocess.run(["gh", "auth", "token"], ...)`:
`FileNotFoundError` when the CLI tool is not installed, otherwise a return
code and captured stdout. -/
inductive CliToken where
  | notInstalled
  | ran (returncode : ℤ) (stdout : String)
deriving DecidableEq

/-- Embedding of `get_github_token()`: the `GITHUB_TOKEN` environment variable
when set and non-empty, else the GitHub CLI's token when the CLI ran with
return code 0 (`stdout.strip()`); `none` models the `sys.exit(1)` fallthrough
(CLI absent, or present with nonzero return code). -/
def get_github_token (env : Option String) (cli : CliToken) : Option String :=
  let fallback : Option String :=
    match cli with
    | .notInstalled => none
    | .ran rc out => if rc = 0 then some (pyStrip out) else none
  match env with
  | some t => if t = "" then fallback else some t
  | none => fallback

/-- The external inputs of one configurator run, in the order `main()`
consumes them: credential sources, then the request outcomes in program
order (repository info; the two verification GETs; the two protection PUTs;
the two security-feature PUTs; the two re-verification GETs), and the
interactive confirmation line. -/
structure ConfigInputs where
  envToken : Option String
  cli : CliToken
  repoInfo : ReqResult
  getProtMain1 : ReqResult
  getProtDev1 : ReqResult
  confirm : String
  putMain : ReqResult
  putDev : ReqResult
  vulnAlerts : ReqResult
  autoFixes : ReqResult
  getProtMain2 : ReqResult
  getProtDev2 : ReqResult

/-- Observable outcome of a configurator run: the process exit status and how
many PUT requests (branch protection and security features) were issued. -/
structure RunOutcome where
  exitCode : ℕ
  putsIssued : ℕ
deriving DecidableEq

/-- Embedding of `main()` (with the `__main__` wrapper): sequential control
flow over the inputs.  `get_github_token` failing is `sys.exit(1)`; every
transport-level request exception is `sys.exit(1)` inside `_make_request`;
`get_repository_info` exits 1 on a non-200 response; a confirmation answer
whose lowercase form is neither `y` nor `yes` is `sys.exit(0)` before any PUT;
non-200 responses to the PUTs and non-200/404 responses to the verification
GETs are only counted/logged and do not alter the exit path; normal
completion exits 0.  (Responses with status 200 are taken to carry the fields
the summary printing reads, as the spec's data model prescribes.) -/
def mainRun (inp : ConfigInputs) : RunOutcome :=
  match get_github_token inp.envToken inp.cli with
  | none => ⟨1, 0⟩
  | some _ =>
    match inp.repoInfo with
    | .error _ => ⟨1, 0⟩
    | .ok r =>
      if r.status ≠ 200 then ⟨1, 0⟩
      else
        match inp.getProtMain1 with
        | .error _ => ⟨1, 0⟩
        | .ok _ =>
          match inp.getProtDev1 with
          | .error _ => ⟨1, 0⟩
          | .ok _ =>
            if ["y", "yes"].contains (pyLower inp.confirm) then
              match inp.putMain with
              | .error _ => ⟨1, 1⟩
              | .ok _ =>
                match inp.putDev with
                | .error _ => ⟨1, 2⟩
                | .ok _ =>
                  match inp.vulnAlerts with
                  | .error _ => ⟨1, 3⟩
                  | .ok _ =>
                    match inp.autoFixes with
                    | .error _ => ⟨1, 4⟩
                    | .ok _ =>
                      match inp.getProtMain2 with
                      | .error _ => ⟨1, 4⟩
                      | .ok _ =>
                        match inp.getProtDev2 with
                        | .error _ => ⟨1, 4⟩
                        | .ok _ => ⟨0, 4⟩
            else ⟨0, 0⟩

/-- Every request the run would make received an HTTP response — no
transport-level exception anywhere. -/
def transportOk (inp : ConfigInputs) : Prop :=
  reqOk inp.repoInfo = true ∧ reqOk inp.getProtMain1 = true ∧
  reqOk inp.getProtDev1 = true ∧ reqOk inp.putMain = true ∧
  reqOk inp.putDev = true ∧ reqOk inp.vulnAlerts = true ∧
  reqOk inp.autoFixes = true ∧ reqOk inp.getProtMain2 = true ∧
  reqOk inp.getProtDev2 = true

/-- The status of the repository-info response, when one arrived. -/
def repoInfoStatus (inp : ConfigInputs) : Option ℕ :=
  match inp.repoInfo with
  | .ok r => some r.status
  | .error _ => none

/-
Theorems.
-/

/-- C1 (counterexample): the claim's boundary case `coverage = 82 → critical`
is false — the classifier computes `value < threshold`, so `coverage = 82` is
classified `good`, not `critical`. -/
theorem c1_counterexample :
    coverageStatus 82 = Status.good ∧ coverageStatus 82 ≠ Status.critical := by
  decide

/-- C1 (amended): each of the four status classifications is a pure binary
function of the value against its fixed threshold — `build_time`, `test_time`
and `memory_mb` are critical exactly when they strictly exceed 180, 120 and
200 respectively, and `coverage` is critical exactly when it is strictly
below 82; every boundary lands on the `good` side, so `build_time = 180` and
`coverage = 82` are good, while `coverage = 82.1` is good and
`build_time = 181` is critical. -/
theorem c1_status_thresholds (v : ℚ) :
    (buildTimeStatus v = Status.critical ↔ 180 < v) ∧
    (testTimeStatus v = Status.critical ↔ 120 < v) ∧
    (memoryStatus v = Status.critical ↔ 200 < v) ∧
    (coverageStatus v = Status.critical ↔ v < 82) ∧
    buildTimeStatus 180 = Status.good ∧
    buildTimeStatus 181 = Status.critical ∧
    coverageStatus 82 = Status.good ∧
    coverageStatus (821 / 10) = Status.good := by
  refine ⟨?_, ?_, ?_, ?_, by decide, by decide, by decide, ?_⟩
  · rw [buildTimeStatus, getStatusClass, if_pos rfl]
    split_ifs with h <;> simp [h]
  · rw [testTimeStatus, getStatusClass, if_pos rfl]
    split_ifs with h <;> simp [h]
  · rw [memoryStatus, getStatusClass, if_pos rfl]
    split_ifs with h <;> simp [h]
  · rw [coverageStatus, getStatusClass, if_neg (by decide)]
    split_ifs with h <;> simp [h]
  · rw [coverageStatus, getStatusClass, if_neg (by decide), if_neg (by norm_num)]

/-- C2 (counterexample): the claim that the alerts field is the last 10
non-empty lines of the log is false — the handler slices the last 10 raw
lines *before* filtering, so a file whose last line is empty after 10
non-empty lines yields only 9 alerts. -/
theorem c2_counterexample :
    alertTail ["a", "b", "c", "d", "e", "f", "g", "h", "i", "j", ""] ≠
      specAlertTail ["a", "b", "c", "d", "e", "f", "g", "h", "i", "j", ""] ∧
    (specAlertTail ["a", "b", "c", "d", "e", "f", "g", "h", "i", "j", ""]).length = 10 ∧
    (alertTail ["a", "b", "c", "d", "e", "f", "g", "h", "i", "j", ""]).length = 9 := by
  decide

/-- C2 (amended): the alerts field equals the non-empty lines among the last
10 raw lines of the alert log, stripped of surrounding whitespace (so at most
10 alerts are returned, and fewer than 10 non-empty lines can be returned
when empty lines occur among the file's last 10 lines, even if the file holds
at least 10 non-empty lines overall). -/
theorem c2_alert_tail (lines : List String) :
    alertTail lines =
      ((lastN 10 lines).filter (fun l => pyStrip l ≠ "")).map pyStrip ∧
    (alertTail lines).length ≤ 10 := by
  have hlast : lastN 10 lines = lines.drop (lines.length - 10) := by
    rw [lastN, ← List.rtake_eq_reverse_take_reverse, List.rtake]
  constructor
  · rw [alertTail, hlast]
  · have h1 := List.length_filter_le (fun l => pyStrip l ≠ "")
      (lines.drop (lines.length - 10))
    have h2 : (lines.drop (lines.length - 10)).length =
        lines.length - (lines.length - 10) := by simp
    rw [alertTail, List.length_map]
    omega

/-- C3 (counterexample): the claim that every entry whose timestamp parses
and lies in the trailing 24-hour window is returned is false — an entry with
an offset-aware (`Z`-suffixed) timestamp parses and can lie inside the
window, yet comparing it with the naive `datetime.now()` cutoff raises
`TypeError`, which the loop's `except` swallows, so the entry is dropped. -/
theorem c3_counterexample :
    (Entry.mk "2026-01-01T00:00:00Z" (some ⟨true, 1000⟩)
        [("build_time", 5)]).parsedTimestamp = some ⟨true, 1000⟩ ∧
    (1000 : ℤ) - 24 * 3600 ≤ 1000 ∧ (1000 : ℤ) ≤ 1000 ∧
    get_trend_data
      [Entry.mk "2026-01-01T00:00:00Z" (some ⟨true, 1000⟩) [("build_time", 5)]]
      "build_time" 1000 = [] := by
  refine ⟨rfl, by norm_num, le_refl _, by decide⟩

/-- C3 (amended): the trend computation returns exactly the history entries
whose timestamp parses to an offset-naive datetime not earlier than 24 hours
before call time, projected to `{timestamp, value}` pairs in history order;
entries whose timestamp is absent, unparsable, or older than the cutoff are
excluded, entries with offset-aware timestamps are always excluded (their
comparison against the naive cutoff raises and is swallowed), naive
timestamps in the future are included, and no exception escapes. -/
theorem c3_trend_window (history : List Entry) (metric : String) (now : ℤ) :
    get_trend_data history metric now =
      (history.filter (fun e => trendIncluded e now)).map
        (fun e => TrendPoint.mk e.timestampStr (e.getMetric metric)) := by
  induction history with
  | nil => rfl
  | cons e t ih =>
    simp only [get_trend_data] at ih ⊢
    rw [List.filterMap_cons, List.filter_cons, ih]
    cases hp : e.parsedTimestamp with
    | none => simp [trendIncluded, hp]
    | some dt =>
      cases hdta : dt.aware with
      | true => simp [trendIncluded, hp, hdta]
      | false =>
        simp only [trendIncluded, hp, hdta, Bool.not_false, Bool.true_and,
          decide_eq_true_eq, ne_eq]
        split_ifs with hw <;> simp_all

/-- C4: when the state file is absent or fails to load, `/api/metrics` still
returns a normal response whose latest snapshot is empty, whose four trend
lists are empty, and whose status counter is 0 (`get_metrics` is total in the
model — the handler never raises for these inputs). -/
theorem c4_missing_state_defaults (file : FileRead StateData)
    (h : file = FileRead.absent ∨ file = FileRead.failed)
    (alertFile : FileRead (List String)) (now : ℤ) :
    (get_metrics (load_data file) alertFile now).latest = none ∧
    (get_metrics (load_data file) alertFile now).trends_build_time = [] ∧
    (get_metrics (load_data file) alertFile now).trends_test_time = [] ∧
    (get_metrics (load_data file) alertFile now).trends_coverage = [] ∧
    (get_metrics (load_data file) alertFile now).trends_memory_mb = [] ∧
    (get_metrics (load_data file) alertFile now).status = 0 := by
  rcases h with h | h <;> subst h <;> exact ⟨rfl, rfl, rfl, rfl, rfl, rfl⟩

/-- Helper: a string whose first characters disagree with `pre` is not an
extension of `pre`. -/
theorem string_ne_append_of_take_ne (t pre s : String)
    (h : t.data.take pre.data.length ≠ pre.data) : t ≠ pre ++ s := by
  intro he
  apply h
  rw [he, String.data_append]
  exact List.take_left pre.data s.data

/-- Helper: a request that produced an HTTP response carries one. -/
theorem exists_ok_of_reqOk {x : ReqResult} (h : reqOk x = true) :
    ∃ r, x = Except.ok r := by
  cases x with
  | ok r => exact ⟨r, rfl⟩
  | error e => simp [reqOk] at h

/-- Helper: each `load_data` call performs only non-mutating file operations. -/
theorem load_data_ops_reads (file : FileRead StateData) :
    (load_data_ops file).all (fun op => !op.isWrite) = true := by
  cases file <;> rfl

/-- C5: the `/api/run-check` handler maps every subprocess outcome to a
response message — exit code 0 to the success message, any nonzero exit code
to a failure message containing the captured stderr (and distinct from the
success message), and expiry of the 300-second timeout to a timeout message
distinct from both; `run_check` is total, so a message is returned in every
case and no exception escapes the handler. -/
theorem c5_run_check_messages (rc : ℤ) (out stderr : String) :
    run_check (.exited 0 out stderr) = "Performance check completed successfully!" ∧
    (rc ≠ 0 →
      containsSub (run_check (.exited rc out stderr)) stderr ∧
      run_check (.exited rc out stderr) ≠ run_check (.exited 0 out stderr)) ∧
    run_check .timedOut = "Performance check timed out" ∧
    run_check .timedOut ≠ run_check (.exited 0 out stderr) ∧
    (rc ≠ 0 → run_check .timedOut ≠ run_check (.exited rc out stderr)) := by
  refine ⟨rfl, fun h => ⟨?_, ?_⟩, rfl, ?_, fun h => ?_⟩
  · refine ⟨"Performance check failed: ", "", ?_⟩
    simp only [run_check, if_neg h]
    apply String.ext
    simp [String.data_append]
  · simp only [run_check, if_neg h, if_pos rfl]
    exact Ne.symm (string_ne_append_of_take_ne
      "Performance check completed successfully!" "Performance check failed: "
      stderr (by decide))
  · exact (by decide :
      "Performance check timed out" ≠ "Performance check completed successfully!")
  · simp only [run_check, if_neg h]
    exact string_ne_append_of_take_ne "Performance check timed out"
      "Performance check failed: " stderr (by decide)

/-- C5 (witness): the nonzero-exit cases at a concrete outcome. -/
theorem c5_run_check_messages_witness :
    containsSub (run_check (.exited 1 "out" "boom")) "boom" ∧
    run_check .timedOut ≠ run_check (.exited 1 "out" "boom") :=
  ⟨((c5_run_check_messages 1 "out" "boom").2.1 (by decide)).1,
   (c5_run_check_messages 1 "out" "boom").2.2.2.2 (by decide)⟩

/-- C6: fetching branch protection returns the parsed settings on a 200
response, the `None` sentinel on 404, and on any other status logs a warning
line and returns the same sentinel; in every case the call returns normally
rather than aborting the run. -/
theorem c6_branch_protection_cases {α : Type} (branch : String) (status : ℕ)
    (body : α) :
    (status = 200 → get_branch_protection branch status body = (some body, [])) ∧
    (status = 404 → get_branch_protection branch status body = (none, [])) ∧
    (status ≠ 200 → status ≠ 404 →
      (get_branch_protection branch status body).1 = none ∧
      (get_branch_protection branch status body).2 ≠ []) := by
  refine ⟨fun h => ?_, fun h => ?_, fun h1 h2 => ?_⟩
  · rw [get_branch_protection, if_pos h]
  · rw [get_branch_protection, if_neg (by omega), if_pos h]
  · rw [get_branch_protection, if_neg h1, if_neg h2]
    exact ⟨rfl, by simp⟩

/-- C6 (witness): the three cases at concrete statuses. -/
theorem c6_branch_protection_cases_witness :
    get_branch_protection "main" 200 (0 : ℕ) = (some 0, []) ∧
    get_branch_protection "main" 404 (0 : ℕ) = (none, []) ∧
    (get_branch_protection "main" 500 (0 : ℕ)).1 = none ∧
    (get_branch_protection "main" 500 (0 : ℕ)).2 ≠ [] :=
  ⟨(c6_branch_protection_cases "main" 200 0).1 rfl,
   (c6_branch_protection_cases "main" 404 0).2.1 rfl,
   ((c6_branch_protection_cases "main" 500 0).2.2 (by decide) (by decide)).1,
   ((c6_branch_protection_cases "main" 500 0).2.2 (by decide) (by decide)).2⟩

/-- C7 (counterexample): the claim that the configurator aborts with a
nonzero exit exactly for the two fatal setup errors is false — a run in which
the token resolves and the repository-info GET returns 200 still exits 1 when
a later request (here the first protection PUT) raises a transport-level
exception, because `_make_request` catches `RequestException` and calls
`sys.exit(1)` for every request. -/
theorem c7_counterexample :
    (get_github_token (some "token") CliToken.notInstalled).isSome = true ∧
    repoInfoStatus ⟨some "token", .notInstalled, .ok ⟨200⟩, .ok ⟨200⟩, .ok ⟨200⟩,
      "y", .error (), .ok ⟨200⟩, .ok ⟨200⟩, .ok ⟨200⟩, .ok ⟨200⟩, .ok ⟨200⟩⟩ =
      some 200 ∧
    (mainRun ⟨some "token", .notInstalled, .ok ⟨200⟩, .ok ⟨200⟩, .ok ⟨200⟩,
      "y", .error (), .ok ⟨200⟩, .ok ⟨200⟩, .ok ⟨200⟩, .ok ⟨200⟩, .ok ⟨200⟩⟩).exitCode
      = 1 := by
  refine ⟨rfl, rfl, by decide⟩

/-- C7 (amended): provided every issued API request receives an HTTP response
(no transport-level exception — such an exception on any request also makes
the process exit 1), the configurator exits with a nonzero code exactly when
no credential token is resolved from the environment variable or the CLI
fallback, or the initial repository-info GET returns a non-200 status. -/
theorem c7_fatal_setup_aborts (inp : ConfigInputs) (h : transportOk inp) :
    (mainRun inp).exitCode ≠ 0 ↔
      get_github_token inp.envToken inp.cli = none ∨
        repoInfoStatus inp ≠ some 200 := by
  obtain ⟨h1, h2, h3, h4, h5, h6, h7, h8, h9⟩ := h
  obtain ⟨r1, e1⟩ := exists_ok_of_reqOk h1
  obtain ⟨r2, e2⟩ := exists_ok_of_reqOk h2
  obtain ⟨r3, e3⟩ := exists_ok_of_reqOk h3
  obtain ⟨r4, e4⟩ := exists_ok_of_reqOk h4
  obtain ⟨r5, e5⟩ := exists_ok_of_reqOk h5
  obtain ⟨r6, e6⟩ := exists_ok_of_reqOk h6
  obtain ⟨r7, e7⟩ := exists_ok_of_reqOk h7
  obtain ⟨r8, e8⟩ := exists_ok_of_reqOk h8
  obtain ⟨r9, e9⟩ := exists_ok_of_reqOk h9
  cases htok : get_github_token inp.envToken inp.cli with
  | none => simp [mainRun, htok]
  | some tok =>
    by_cases hst : r1.status = 200
    · have hmain : (mainRun inp).exitCode = 0 := by
        simp only [mainRun, htok, e1, e2, e3, e4, e5, e6, e7, e8, e9]
        rw [if_neg (by simp [hst])]
        by_cases hc : ["y", "yes"].contains (pyLower inp.confirm) = true
        · rw [if_pos hc]
        · rw [if_neg hc]
      simp [hmain, repoInfoStatus, e1, hst]
    · have hmain : (mainRun inp).exitCode = 1 := by
        simp only [mainRun, htok, e1]
        rw [if_pos hst]
      simp [hmain, repoInfoStatus, e1, hst]

/-- C7 (witness): a run with no credential from either source exits nonzero. -/
theorem c7_fatal_setup_aborts_witness :
    (mainRun ⟨none, CliToken.notInstalled, .ok ⟨200⟩, .ok ⟨200⟩, .ok ⟨200⟩,
      "y", .ok ⟨200⟩, .ok ⟨200⟩, .ok ⟨200⟩, .ok ⟨200⟩, .ok ⟨200⟩, .ok ⟨200⟩⟩).exitCode
      ≠ 0 :=
  (c7_fatal_setup_aborts
      ⟨none, CliToken.notInstalled, .ok ⟨200⟩, .ok ⟨200⟩, .ok ⟨200⟩, "y",
        .ok ⟨200⟩, .ok ⟨200⟩, .ok ⟨200⟩, .ok ⟨200⟩, .ok ⟨200⟩, .ok ⟨200⟩⟩
      ⟨rfl, rfl, rfl, rfl, rfl, rfl, rfl, rfl, rfl⟩).mpr (Or.inl rfl)

/-- C8: the dashboard server is a read-only consumer of its files — the
initial `load_data`, every background refresh tick, and each request handler
emit only `exists`-checks and reads (no write or directory mutation), so the
state file's contents are left unchanged by every operation. -/
theorem c8_server_read_only (file : FileRead StateData)
    (files : ℕ → FileRead StateData) (n : ℕ)
    (alertFile : FileRead (List String)) :
    (load_data_ops file).all (fun op => !op.isWrite) = true ∧
    (refresh_data_ops files n).all (fun op => !op.isWrite) = true ∧
    (get_metrics_ops alertFile).all (fun op => !op.isWrite) = true ∧
    run_check_ops = [] ∧ dashboard_ops = [] := by
  refine ⟨load_data_ops_reads file, ?_, ?_, rfl, rfl⟩
  · rw [List.all_eq_true]
    intro op hop
    rw [refresh_data_ops, List.mem_flatMap] at hop
    obtain ⟨i, _, hmem⟩ := hop
    have hall := load_data_ops_reads (files i)
    rw [List.all_eq_true] at hall
    exact hall op hmem
  · cases alertFile <;> rfl

/-- C9: in the interactive confirmation step (token resolved, repository info
fetched with 200, both verification GETs answered), any answer whose
lowercased form is neither `y` nor `yes` makes the process exit with status 0
before any branch-protection or security-feature PUT is issued. -/
theorem c9_decline_cancels (inp : ConfigInputs)
    (htok : (get_github_token inp.envToken inp.cli).isSome = true)
    (hrepo : inp.repoInfo = Except.ok ⟨200⟩)
    (hg1 : reqOk inp.getProtMain1 = true)
    (hg2 : reqOk inp.getProtDev1 = true)
    (hconfirm : (["y", "yes"].contains (pyLower inp.confirm)) = false) :
    mainRun inp = ⟨0, 0⟩ := by
  obtain ⟨t, ht⟩ : ∃ t, get_github_token inp.envToken inp.cli = some t := by
    cases hx : get_github_token inp.envToken inp.cli with
    | none => rw [hx] at htok; exact absurd htok (by decide)
    | some t => exact ⟨t, rfl⟩
  obtain ⟨r2, e2⟩ := exists_ok_of_reqOk hg1
  obtain ⟨r3, e3⟩ := exists_ok_of_reqOk hg2
  have hcond : ¬(["y", "yes"].contains (pyLower inp.confirm) = true) := by
    rw [hconfirm]
    simp
  simp only [mainRun, ht, hrepo, e2, e3]
  rw [if_neg (by simp), if_neg hcond]

/-- C9 (witness): answering `No` cancels the run with exit 0 and no PUTs. -/
theorem c9_decline_cancels_witness :
    mainRun ⟨some "token", CliToken.notInstalled, .ok ⟨200⟩, .ok ⟨200⟩,
      .ok ⟨200⟩, "No", .ok ⟨200⟩, .ok ⟨200⟩, .ok ⟨200⟩, .ok ⟨200⟩, .ok ⟨200⟩,
      .ok ⟨200⟩⟩ = ⟨0, 0⟩ :=
  c9_decline_cancels _ rfl rfl rfl rfl (by decide)

/-- C10: a history entry whose (naive) timestamp parses and lies in the trend
window but which lacks the requested metric field still contributes a data
point with value 0 — the projection uses `entry.get(metric, 0)`, so the entry
is not skipped. -/
theorem c10_missing_metric_zero (history : List Entry) (metric : String)
    (now : ℤ) (e : Entry) (dt : PyDT) (hmem : e ∈ history)
    (hparse : e.parsedTimestamp = some dt) (haware : dt.aware = false)
    (hwin : now - 24 * 3600 ≤ dt.t) (hmiss : e.fields.lookup metric = none) :
    TrendPoint.mk e.timestampStr 0 ∈ get_trend_data history metric now := by
  simp only [get_trend_data]
  rw [List.mem_filterMap]
  refine ⟨e, hmem, ?_⟩
  simp only [hparse]
  rw [if_neg (by simp [haware]), if_pos hwin]
  simp [Entry.getMetric, hmiss]

/-- C10 (witness): a concrete in-window entry with no `coverage` field yields
the zero-valued point. -/
theorem c10_missing_metric_zero_witness :
    TrendPoint.mk "2026-01-01T00:00:00" 0 ∈
      get_trend_data [⟨"2026-01-01T00:00:00", some ⟨false, 0⟩, []⟩] "coverage" 0 :=
  c10_missing_metric_zero _ "coverage" 0
    ⟨"2026-01-01T00:00:00", some ⟨false, 0⟩, []⟩ ⟨false, 0⟩ (by simp) rfl rfl
    (by norm_num) rfl

/-- C4 (witness): the absent-state-file case, concretely. -/
theorem c4_missing_state_defaults_witness :
    (get_metrics (load_data FileRead.absent) FileRead.absent 0).latest = none ∧
    (get_metrics (load_data FileRead.absent) FileRead.absent 0).trends_build_time = [] ∧
    (get_metrics (load_data FileRead.absent) FileRead.absent 0).trends_test_time = [] ∧
    (get_metrics (load_data FileRead.absent) FileRead.absent 0).trends_coverage = [] ∧
    (get_metrics (load_data FileRead.absent) FileRead.absent 0).trends_memory_mb = [] ∧
    (get_metrics (load_data FileRead.absent) FileRead.absent 0).status = 0 :=
  c4_missing_state_defaults FileRead.absent (Or.inl rfl) FileRead.absent 0

end CodeGuardian
